/-
Verification of the Google API tool adapters (`API_Google.py`):
`GoogleSearchTool`, `GooglePlacesTool` and `get_place_working_hours`.

The Python code is shallowly embedded: each adapter becomes a pure Lean
function of its configuration, its arguments and the provider's (already
decoded) JSON response.  Every adapter returns a pair: the Python result
(`Except PyError _`, where `PyError` models the exception that escapes)
together with `Option Params`, the parameters of the single outbound HTTP
request — `none` meaning the invocation failed before any network request
was attempted.  JSON numbers that the code only ever formats into strings
(place ratings, review counts) are modelled by their rendered text.
-/
import Mathlib

/-- The Python exceptions that can escape the adapters:
`ValueError` (raised explicitly by the adapters), `KeyError` (a failing
`d[k]` dictionary or `os.environ[k]` lookup) and `IndexError`
(a failing `l[0]` on an empty list). -/
inductive PyError where
  | valueError (msg : String)
  | keyError (key : String)
  | indexError
deriving DecidableEq, Repr

/-- The process environment variables the adapters read. -/
structure Env where
  google_api_key : Option String
  google_cse_id : Option String
deriving DecidableEq, Repr

/-- Python `a or b` for a `str`-or-`None` value `a`: `a` unless `a` is
falsy (`None` or the empty string). -/
def pyOr (a b : Option String) : Option String :=
  match a with
  | some s => if s = "" then b else some s
  | none => b

/-- Python `os.getenv(key, default)`: the environment value when the
variable is set, the default otherwise. -/
def pyGetenv (envVal : Option String) (default : Option String) : Option String :=
  match envVal with
  | some v => some v
  | none => default

/-- Python `sep.join(parts)`. -/
def pyJoin (sep : String) : List String → String
  | [] => ""
  | [s] => s
  | s :: rest => s ++ sep ++ pyJoin sep rest

/-- Python `s.split(c)` for a one-character separator, on the character
list: splitting on every occurrence, keeping empty parts. -/
def splitOnChar (sep : Char) : List Char → List (List Char)
  | [] => [[]]
  | c :: cs =>
    if c = sep then [] :: splitOnChar sep cs
    else
      (c :: (splitOnChar sep cs).headD []) :: (splitOnChar sep cs).tail

/-- The characters Python `str.strip()` removes. -/
def isPySpace (c : Char) : Bool :=
  c == ' ' || c == '\t' || c == '\n' || c == '\r' || c == '\x0b' || c == '\x0c'

/-- Python `s.strip()`. -/
def pyStrip (s : String) : String :=
  String.mk (((s.data.dropWhile isPySpace).reverse.dropWhile isPySpace).reverse)

/-- Value of a list of decimal digit characters. -/
def digitsVal (cs : List Char) : Nat :=
  cs.foldl (fun a c => 10 * a + (c.toNat - 48)) 0

/-- Python `float(s)`, modelled over the exact rationals for the decimal
forms the adapters meet: an optional sign followed by digits with an
optional decimal point (`"44"`, `"44.8176"`, `".5"`, `"5."`).  Exponent,
`inf`/`nan` and underscore forms of the builtin are not modelled; no
claim depends on them.  `none` models the `ValueError` the builtin
raises on any other string. -/
def pyFloat (s : String) : Option ℚ :=
  let signBody : Int × List Char :=
    match s.data with
    | '-' :: rest => (-1, rest)
    | '+' :: rest => (1, rest)
    | cs => (1, cs)
  match splitOnChar '.' signBody.2 with
  | [ip] =>
    if !ip.isEmpty && ip.all Char.isDigit then
      some (mkRat (signBody.1 * (digitsVal ip : Int)) 1)
    else none
  | [ip, fp] =>
    if (!ip.isEmpty || !fp.isEmpty) && ip.all Char.isDigit && fp.all Char.isDigit then
      some (mkRat (signBody.1 * ((digitsVal ip * 10 ^ fp.length + digitsVal fp : Nat) : Int))
        (10 ^ fp.length))
    else none
  | _ => none

/-- The lines of a string: `s.splitOn "\n"`, computed structurally on the
character list. -/
def linesOf (s : String) : List String :=
  (splitOnChar '\n' s.data).map String.mk

/-- A string `p` occurs verbatim (as a contiguous substring) in `s`. -/
def strContains (s p : String) : Prop :=
  ∃ l r, s.data = l ++ p.data ++ r

namespace GoogleSearchTool

/-- The two credential attributes set by `GoogleSearchTool.__init__`. -/
structure Cfg where
  api_key : Option String
  cx : Option String
deriving DecidableEq, Repr

/-- `GoogleSearchTool.__init__(api_key, cx)`: explicit argument `or`
the environment variable. -/
def init (api_key cx : Option String) (env : Env) : Cfg :=
  { api_key := pyOr api_key env.google_api_key
    cx := pyOr cx env.google_cse_id }

/-- One item of the provider's `items` list; only `title` and `link`
are read, and only `link` reaches the output. -/
structure Item where
  title : Option String
  link : Option String
deriving DecidableEq, Repr

/-- The decoded JSON body of a successful Custom Search response:
the `items` key may be absent. -/
structure Resp where
  items : Option (List Item)
deriving DecidableEq, Repr

/-- The query parameters of the single outbound request. -/
structure Params where
  key : String
  cx : String
  q : String
  sort : Option String
  dateRestrict : Option String
deriving DecidableEq, Repr

/-- `f" with filter year={filter_year}" if filter_year is not None else ""`. -/
def yearFilterMessage : Option Int → String
  | some y => " with filter year=" ++ toString y
  | none => ""

/-- The no-results message of `GoogleSearchTool.forward`. -/
def noResultsMsg (query : String) (filter_year : Option Int) : String :=
  "No results found for \x27" ++ query ++ "\x27" ++ yearFilterMessage filter_year ++
    ". Try with a more general query, or remove the year filter."

/-- The loop body of `GoogleSearchTool.forward`: `title` is computed but
unused; `formatted_result = f"{idx + 1}. {link}"`. -/
def snippet (idx : Nat) (item : Item) : String :=
  Nat.repr (idx + 1) ++ ". " ++ item.link.getD "#"

/-- `GoogleSearchTool.forward(query, filter_year)` as a function of the
configuration and of the provider response. -/
def forward (cfg : Cfg) (query : String) (filter_year : Option Int) (resp : Resp) :
    Except PyError String × Option Params :=
  match cfg.api_key with
  | none => (.error (.valueError
      "Missing Google API key. Make sure you have \x27GOOGLE_API_KEY\x27 in your env variables."),
      none)
  | some key =>
    match cfg.cx with
    | none => (.error (.valueError
        "Missing Custom Search Engine ID. Make sure you have \x27GOOGLE_CSE_ID\x27 in your env variables."),
        none)
    | some cx =>
      let params : Params :=
        { key := key
          cx := cx
          q := query
          sort := match filter_year with | some _ => some "date" | none => none
          dateRestrict := match filter_year with | some y => some ("y" ++ toString y) | none => none }
      let items := resp.items.getD []
      if items.isEmpty then
        (.ok (noResultsMsg query filter_year), some params)
      else
        (.ok ("## Search Results\n" ++
          pyJoin "\n\n" (items.enum.map (fun p => snippet p.1 p.2))), some params)

/-- One invocation as a state transition: `forward` assigns no attribute
of `self`, so the configuration after the call is the one before it. -/
def invoke (st : Cfg) (query : String) (filter_year : Option Int) (resp : Resp) :
    (Except PyError String × Option Params) × Cfg :=
  (forward st query filter_year resp, st)

end GoogleSearchTool

namespace GooglePlacesTool

/-- The single credential attribute set by `GooglePlacesTool.__init__`
(the other attributes are the constants below; `API_TYPE` is fixed to
`"textsearch"`, so the `"findplacefromtext"` request branch is dead
code and is not modelled). -/
structure Cfg where
  google_api_key : Option String
deriving DecidableEq, Repr

/-- `GooglePlacesTool.__init__(api_key)`:
`os.getenv("GOOGLE_API_KEY", api_key)` — the environment variable wins
whenever it is set. -/
def init (api_key : Option String) (env : Env) : Cfg :=
  { google_api_key := pyGetenv env.google_api_key api_key }

/-- `self.default_lat` (Belgrade), the float `44.8176`. -/
def default_lat : ℚ := mkRat 448176 10000

/-- `self.default_lng` (Belgrade), the float `20.4633`. -/
def default_lng : ℚ := mkRat 204633 10000

/-- `self.default_radius`. -/
def default_radius : Int := 5000

/-- One item of the provider's `results` list.  The JSON number values
of `rating` and `user_ratings_total` are modelled by their rendered
text, which is all the code uses them for. -/
structure Item where
  name : Option String
  formatted_address : Option String
  place_id : Option String
  rating : Option String
  user_ratings_total : Option String
deriving DecidableEq, Repr

/-- The decoded JSON body of a successful Places `textsearch` response:
`data.get("results", [])` defaults a missing key to the empty list. -/
structure Resp where
  results : Option (List Item)
deriving DecidableEq, Repr

/-- The query parameters of the single outbound `textsearch` request.
The real request renders `location` as the string `f"{lat},{lng}"`
(where a `None` coordinate would render as `"None"`); the pair is kept
structured here. -/
structure Params where
  key : String
  query : String
  location : Option ℚ × Option ℚ
  radius : Int
deriving DecidableEq, Repr

/-- `GooglePlacesTool._parse_location(location)`: split a
`"lat,lng"` string into two floats, falling back to the Belgrade
default on a missing, comma-free or unparsable input (the
`ValueError`/`TypeError` of `float()` and of the 2-tuple unpacking are
caught and discarded). -/
def _parse_location (location : Option String) : ℚ × ℚ :=
  match location with
  | none => (default_lat, default_lng)
  | some loc =>
    if !loc.data.isEmpty && loc.data.contains ',' then
      match (splitOnChar ',' loc.data).map String.mk with
      | [lat_str, lng_str] =>
        match pyFloat (pyStrip lat_str), pyFloat (pyStrip lng_str) with
        | some lat, some lng => (lat, lng)
        | _, _ => (default_lat, default_lng)
      | _ => (default_lat, default_lng)
    else (default_lat, default_lng)

/-- The two `None`-defaulting branches at the top of
`GooglePlacesTool._api_request`.  The second branch is the source's
slip: `if lng is None: lat = self.default_lng` assigns `lat`, not
`lng`. -/
def apiRequestCoords (lat lng : Option ℚ) : Option ℚ × Option ℚ :=
  let lat1 := match lat with | none => some default_lat | some _ => lat
  let lat2 := match lng with | none => some default_lng | some _ => lat1
  (lat2, lng)

/-- `GooglePlacesTool._api_request(query, lat, lng, radius)` in the
`textsearch` mode, as a function of the provider response: returns the
`results` list together with the request parameters. -/
def _api_request (key : String) (query : String) (lat lng : Option ℚ) (radius : Int)
    (resp : Resp) : List Item × Params :=
  let coords := apiRequestCoords lat lng
  let params : Params := { key := key, query := query, location := coords, radius := radius }
  (resp.results.getD [], params)

/-- A per-place record appended to `formatted_results` by
`GooglePlacesTool._format_places`. -/
structure Record where
  name : String
  address : String
  rating_info : String
  place_id : String
deriving DecidableEq, Repr

/-- The value `_format_places` returns: a bare string when no places
were found, otherwise the list of records (the function's `-> str`
annotation notwithstanding). -/
inductive Output where
  | str (s : String)
  | records (rs : List Record)
deriving DecidableEq, Repr

/-- Rendering of a float into a message, abstracting Python's decimal
float `repr`; no claim depends on its exact form. -/
def floatRepr (x : ℚ) : String := toString x

/-- The loop body of `GooglePlacesTool._format_places`: one record per
place, with placeholder defaults for missing fields and a rating
summary only when the provider returned a `rating` key
(`user_ratings_total` defaults to `0`). -/
def formatRecord (place : Item) : Record :=
  { name := place.name.getD "Unnamed location"
    address := place.formatted_address.getD "No address available"
    rating_info :=
      match place.rating with
      | some r => "\nRating: " ++ r ++ "/5 (" ++ place.user_ratings_total.getD "0" ++ " reviews)"
      | none => ""
    place_id := place.place_id.getD "No ID" }

/-- `GooglePlacesTool._format_places(query, places, lat, lng, radius)`. -/
def _format_places (query : String) (places : List Item) (lat lng : ℚ) (radius : Int) :
    Output :=
  if places.isEmpty then
    .str ("No places found for \x27" ++ query ++ "\x27 within " ++ toString radius ++
      "m of coordinates " ++ floatRepr lat ++ "," ++ floatRepr lng ++ ".")
  else
    .records (places.map formatRecord)

/-- `GooglePlacesTool.forward(query, location, radius)` as a function of
the configuration and of the provider response. -/
def forward (cfg : Cfg) (query : String) (location : Option String) (radius : Option Int)
    (resp : Resp) : Except PyError Output × Option Params :=
  match cfg.google_api_key with
  | none => (.error (.valueError
      "Missing Google API key. Make sure you have \x27GOOGLE_API_KEY\x27 in your env variables."),
      none)
  | some key =>
    let p := _parse_location location
    let search_radius := radius.getD default_radius
    let reqResult := _api_request key query (some p.1) (some p.2) search_radius resp
    (.ok (_format_places query reqResult.1 p.1 p.2 search_radius), some reqResult.2)

/-- One invocation as a state transition: `forward` assigns no attribute
of `self`, so the configuration after the call is the one before it. -/
def invoke (st : Cfg) (query : String) (location : Option String) (radius : Option Int)
    (resp : Resp) : (Except PyError Output × Option Params) × Cfg :=
  (forward st query location radius resp, st)

end GooglePlacesTool

/-- A failing `d[k]` Python dictionary access on a modelled-as-`Option`
field: `KeyError` when the key is absent. -/
def getKey {α : Type} (v : Option α) (k : String) : Except PyError α :=
  match v with
  | some x => .ok x
  | none => .error (.keyError k)

/-- A Python `l[0]` access: `IndexError` on the empty list. -/
def getIndex0 {α : Type} : List α → Except PyError α
  | [] => .error .indexError
  | a :: _ => .ok a

namespace PlaceHours

/-- The `"open"` / `"close"` sub-objects of an opening-hours period;
the `"time"` key may be absent. -/
structure PeriodEnd where
  time : Option String
deriving DecidableEq, Repr

/-- One element of the `periods` list; the JSON keys are `"open"` and
`"close"`. -/
structure Period where
  openEnd : Option PeriodEnd
  closeEnd : Option PeriodEnd
deriving DecidableEq, Repr

/-- The `opening_hours` sub-object; the `periods` key may be absent. -/
structure OpeningHours where
  periods : Option (List Period)
deriving DecidableEq, Repr

/-- The `result` sub-object (only `opening_hours` is accessed). -/
structure PlaceResult where
  opening_hours : Option OpeningHours
deriving DecidableEq, Repr

/-- The decoded JSON body of a Place Details response. -/
structure Resp where
  result : Option PlaceResult
deriving DecidableEq, Repr

/-- The query parameters of the single outbound request. -/
structure Params where
  place_id : String
  fields : String
  key : String
deriving DecidableEq, Repr

/-- The dictionary `get_place_working_hours` returns. -/
structure HoursOut where
  open_time : String
  close_time : String
deriving DecidableEq, Repr

end PlaceHours

/-- `get_place_working_hours(place_id)` as a function of the environment
and of the provider response.  `os.environ['GOOGLE_API_KEY']` raises an
unguarded `KeyError` when the variable is unset (before any request);
afterwards the chain
`response['result']['opening_hours']['periods'][0]` and the
`['open']['time']` / `['close']['time']` accesses raise `KeyError` /
`IndexError` on any missing piece, after the one request. -/
def get_place_working_hours (env : Env) (place_id : String) (resp : PlaceHours.Resp) :
    Except PyError PlaceHours.HoursOut × Option PlaceHours.Params :=
  match env.google_api_key with
  | none => (.error (.keyError "GOOGLE_API_KEY"), none)
  | some key =>
    let params : PlaceHours.Params :=
      { place_id := place_id, fields := "name,url,opening_hours", key := key }
    let out : Except PyError PlaceHours.HoursOut := do
      let r ← getKey resp.result "result"
      let oh ← getKey r.opening_hours "opening_hours"
      let ps ← getKey oh.periods "periods"
      let hours ← getIndex0 ps
      let o ← getKey hours.openEnd "open"
      let open_time ← getKey o.time "time"
      let c ← getKey hours.closeEnd "close"
      let close_time ← getKey c.time "time"
      pure { open_time := open_time, close_time := close_time }
    (out, some params)

/-- One invocation of the hours lookup as a state transition on the
environment it reads: the function writes no environment variable. -/
def hoursInvoke (env : Env) (place_id : String) (resp : PlaceHours.Resp) :
    (Except PyError PlaceHours.HoursOut × Option PlaceHours.Params) × Env :=
  (get_place_working_hours env place_id resp, env)

theorem splitOnChar_ne_nil (sep : Char) : ∀ cs : List Char, splitOnChar sep cs ≠ []
  | [] => by simp [splitOnChar]
  | c :: cs => by
    simp only [splitOnChar]
    split <;> simp

theorem splitOnChar_sep_cons (sep : Char) (ys : List Char) :
    splitOnChar sep (sep :: ys) = [] :: splitOnChar sep ys := by
  simp [splitOnChar]

theorem splitOnChar_cons_of_ne (sep c : Char) (cs : List Char) (h : c ≠ sep) :
    splitOnChar sep (c :: cs) =
      (c :: (splitOnChar sep cs).headD []) :: (splitOnChar sep cs).tail := by
  simp [splitOnChar, h]

theorem splitOnChar_append (sep : Char) :
    ∀ xs ys : List Char, (∀ c ∈ xs, c ≠ sep) →
      splitOnChar sep (xs ++ ys) =
        (xs ++ (splitOnChar sep ys).headD []) :: (splitOnChar sep ys).tail
  | [], ys, _ => by
    cases h : splitOnChar sep ys with
    | nil => exact absurd h (splitOnChar_ne_nil sep ys)
    | cons l ls => simp [h]
  | x :: xs, ys, h => by
    have hx : x ≠ sep := h x (List.mem_cons_self x xs)
    have ih := splitOnChar_append sep xs ys (fun c hc => h c (List.mem_cons_of_mem x hc))
    rw [List.cons_append, splitOnChar_cons_of_ne sep x _ hx, ih, List.headD_cons,
      List.tail_cons, List.cons_append]

theorem splitOnChar_no_sep (sep : Char) (xs : List Char) (h : ∀ c ∈ xs, c ≠ sep) :
    splitOnChar sep xs = [xs] := by
  have := splitOnChar_append sep xs [] h
  simpa [splitOnChar] using this

theorem intersperse_length_eq {α : Type} (sep : α) :
    ∀ l : List α, (List.intersperse sep l).length = 2 * l.length - 1
  | [] => rfl
  | [a] => rfl
  | a :: b :: t => by
    have ih := intersperse_length_eq sep (b :: t)
    rw [List.intersperse_cons_cons, List.length_cons, List.length_cons, ih]
    simp [List.length_cons]
    omega

theorem intersperse_get?_two_mul {α : Type} (sep : α) :
    ∀ (l : List α) (i : Nat), (List.intersperse sep l).get? (2 * i) = l.get? i
  | [], i => by simp
  | [a], 0 => rfl
  | [a], i + 1 => by
    have h2 : 2 * (i + 1) = 2 * i + 1 + 1 := by omega
    simp [List.intersperse, h2]
  | a :: b :: t, 0 => by simp [List.intersperse_cons_cons]
  | a :: b :: t, i + 1 => by
    have ih := intersperse_get?_two_mul sep (b :: t) i
    have h2 : 2 * (i + 1) = 2 * i + 1 + 1 := by omega
    rw [List.intersperse_cons_cons, h2, List.get?_cons_succ, List.get?_cons_succ,
      List.get?_cons_succ, ih]

theorem intersperse_map {α β : Type} (f : α → β) (sep : α) :
    ∀ l : List α, (List.intersperse sep l).map f = List.intersperse (f sep) (l.map f)
  | [] => rfl
  | [a] => rfl
  | a :: b :: t => by
    simp only [List.intersperse_cons_cons, List.map_cons]
    rw [intersperse_map f sep (b :: t), List.map_cons]

theorem mk_data_eq (s : String) : String.mk s.data = s := rfl

theorem digitChar_lt16_ne_newline (m : Nat) (h : m < 16) : Nat.digitChar m ≠ '\n' := by
  interval_cases m <;> decide

theorem toDigitsCore_ne_newline :
    ∀ (fuel n : Nat) (ds : List Char), (∀ c ∈ ds, c ≠ '\n') →
      ∀ c ∈ Nat.toDigitsCore 10 fuel n ds, c ≠ '\n' := by
  intro fuel
  induction fuel with
  | zero => intro n ds h c hc; exact h c hc
  | succ fuel ih =>
    intro n ds h
    have heq : Nat.toDigitsCore 10 (fuel + 1) n ds =
        if n / 10 = 0 then Nat.digitChar (n % 10) :: ds
        else Nat.toDigitsCore 10 fuel (n / 10) (Nat.digitChar (n % 10) :: ds) := rfl
    rw [heq]
    have hd : ∀ x ∈ Nat.digitChar (n % 10) :: ds, x ≠ '\n' := by
      intro x hx
      rcases List.mem_cons.mp hx with rfl | hx
      · exact digitChar_lt16_ne_newline (n % 10) (by omega)
      · exact h x hx
    by_cases h0 : n / 10 = 0
    · rw [if_pos h0]; exact hd
    · rw [if_neg h0]; exact ih (n / 10) (Nat.digitChar (n % 10) :: ds) hd

theorem natRepr_ne_newline (n : Nat) : ∀ c ∈ (Nat.repr n).data, c ≠ '\n' := by
  intro c hc
  have hrepr : (Nat.repr n).data = Nat.toDigitsCore 10 (n + 1) n [] := rfl
  rw [hrepr] at hc
  exact toDigitsCore_ne_newline (n + 1) n [] (by simp) c hc

theorem snippet_data (idx : Nat) (item : GoogleSearchTool.Item) :
    (GoogleSearchTool.snippet idx item).data =
      (Nat.repr (idx + 1)).data ++ ('.' :: ' ' :: (item.link.getD "#").data) := by
  simp [GoogleSearchTool.snippet, String.data_append]

theorem snippet_ne_newline (idx : Nat) (item : GoogleSearchTool.Item)
    (h : ∀ c ∈ (item.link.getD "#").data, c ≠ '\n') :
    ∀ c ∈ (GoogleSearchTool.snippet idx item).data, c ≠ '\n' := by
  intro c hc
  rw [snippet_data] at hc
  rcases List.mem_append.mp hc with hc | hc
  · exact natRepr_ne_newline (idx + 1) c hc
  · rcases List.mem_cons.mp hc with rfl | hc
    · decide
    · rcases List.mem_cons.mp hc with rfl | hc
      · decide
      · exact h c hc

theorem splitOnChar_pyJoin :
    ∀ l : List String, l ≠ [] → (∀ s ∈ l, ∀ c ∈ s.data, c ≠ '\n') →
      splitOnChar '\n' (pyJoin "\n\n" l).data = List.intersperse [] (l.map String.data)
  | [], h, _ => absurd rfl h
  | [a], _, h => by
    simp only [pyJoin, List.map_cons, List.map_nil, List.intersperse_singleton]
    exact splitOnChar_no_sep '\n' a.data (h a (List.mem_cons_self a []))
  | a :: b :: t, _, h => by
    have ih := splitOnChar_pyJoin (b :: t) (by simp)
      (fun s hs => h s (List.mem_cons_of_mem a hs))
    have ha : ∀ c ∈ a.data, c ≠ '\n' := h a (List.mem_cons_self a (b :: t))
    have hdata : (pyJoin "\n\n" (a :: b :: t)).data =
        a.data ++ ('\n' :: '\n' :: (pyJoin "\n\n" (b :: t)).data) := by
      show (a ++ "\n\n" ++ pyJoin "\n\n" (b :: t)).data = _
      simp [String.data_append]
    rw [hdata, splitOnChar_append '\n' a.data _ ha, splitOnChar_sep_cons,
      splitOnChar_sep_cons, List.headD_cons, List.tail_cons, ih]
    simp only [List.map_cons]
    rw [List.intersperse_cons_cons]
    simp

theorem header_join_linesOf (snips : List String) (hne : snips ≠ [])
    (hnl : ∀ s ∈ snips, ∀ c ∈ s.data, c ≠ '\n') :
    linesOf ("## Search Results\n" ++ pyJoin "\n\n" snips) =
      "## Search Results" :: List.intersperse "" snips := by
  have hhdr : ∀ c ∈ "## Search Results".data, c ≠ '\n' := by decide
  have hdata : ("## Search Results\n" ++ pyJoin "\n\n" snips).data =
      "## Search Results".data ++ ('\n' :: (pyJoin "\n\n" snips).data) := by
    rw [String.data_append]
    rw [show "## Search Results\n".data = "## Search Results".data ++ ['\n'] from by decide]
    simp only [List.append_assoc, List.singleton_append]
  unfold linesOf
  rw [hdata, splitOnChar_append '\n' _ _ hhdr, splitOnChar_sep_cons, List.headD_cons,
    List.tail_cons, splitOnChar_pyJoin snips hne hnl, List.map_cons,
    List.append_nil, intersperse_map String.mk [], List.map_map,
    show (String.mk ∘ String.data) = id from funext fun s => mk_data_eq s, List.map_id]

/-- C1: invoking any adapter without its required credentials fails before
any HTTP request is attempted (the request-parameter component is `none`).
`GoogleSearchTool.forward` and `GooglePlacesTool.forward` raise an explicit
configuration `ValueError`; `get_place_working_hours`, by contrast, fails
with the unguarded `KeyError` of `os.environ['GOOGLE_API_KEY']` rather than
with a configuration error — the divergence that makes this claim a code
bug for the hours adapter. -/
theorem claim_C1_missing_credentials :
    (∀ (c : Option String) (q : String) (fy : Option Int) (r : GoogleSearchTool.Resp),
      GoogleSearchTool.forward ⟨none, c⟩ q fy r =
        (.error (.valueError
          "Missing Google API key. Make sure you have \x27GOOGLE_API_KEY\x27 in your env variables."),
         none)) ∧
    (∀ (k q : String) (fy : Option Int) (r : GoogleSearchTool.Resp),
      GoogleSearchTool.forward ⟨some k, none⟩ q fy r =
        (.error (.valueError
          "Missing Custom Search Engine ID. Make sure you have \x27GOOGLE_CSE_ID\x27 in your env variables."),
         none)) ∧
    (∀ (q : String) (loc : Option String) (rad : Option Int) (r : GooglePlacesTool.Resp),
      GooglePlacesTool.forward ⟨none⟩ q loc rad r =
        (.error (.valueError
          "Missing Google API key. Make sure you have \x27GOOGLE_API_KEY\x27 in your env variables."),
         none)) ∧
    (∀ (e : Option String) (pid : String) (r : PlaceHours.Resp),
      get_place_working_hours ⟨none, e⟩ pid r =
        (.error (.keyError "GOOGLE_API_KEY"), none)) :=
  ⟨fun _ _ _ _ => rfl, fun _ _ _ _ => rfl, fun _ _ _ _ => rfl, fun _ _ _ => rfl⟩

/-- C2: with an empty `opening_hours.periods` list the hours lookup fails
with an unhandled `IndexError` from `periods[0]` (and with a `KeyError`
when the opening-hours data is absent), not with a documented
not-found/data-shape error — the claim's required behavior is violated,
hence the code bug. -/
theorem claim_C2_empty_periods_structural_error :
    get_place_working_hours ⟨some "key", none⟩ "pid" ⟨some ⟨some ⟨some []⟩⟩⟩ =
      (.error .indexError, some ⟨"pid", "name,url,opening_hours", "key"⟩) ∧
    get_place_working_hours ⟨some "key", none⟩ "pid" ⟨some ⟨none⟩⟩ =
      (.error (.keyError "opening_hours"), some ⟨"pid", "name,url,opening_hours", "key"⟩) :=
  ⟨rfl, rfl⟩

/-- C4: the places location parser returns exactly the floats 44.8176 and
20.4633 on the well-formed input `"44.8176,20.4633"`, and falls back to
the documented Belgrade default pair on the malformed input
`"not-a-number,also-bad"` without raising. -/
theorem claim_C4_parse_location_exact_and_fallback :
    GooglePlacesTool._parse_location (some "44.8176,20.4633") = ((44.8176 : ℚ), (20.4633 : ℚ)) ∧
    GooglePlacesTool._parse_location (some "not-a-number,also-bad") =
      (GooglePlacesTool.default_lat, GooglePlacesTool.default_lng) ∧
    GooglePlacesTool.default_lat = (44.8176 : ℚ) ∧
    GooglePlacesTool.default_lng = (20.4633 : ℚ) := by
  have h1 : GooglePlacesTool._parse_location (some "44.8176,20.4633") =
      (mkRat 448176 10000, mkRat 204633 10000) := by decide
  have h2 : GooglePlacesTool.default_lat = (44.8176 : ℚ) := by
    unfold GooglePlacesTool.default_lat
    norm_num [mkRat, Rat.normalize]
  have h3 : GooglePlacesTool.default_lng = (20.4633 : ℚ) := by
    unfold GooglePlacesTool.default_lng
    norm_num [mkRat, Rat.normalize]
  refine ⟨h1.trans ?_, by decide, h2, h3⟩
  rw [← h2, ← h3]
  rfl

/-- C8: every adapter is a deterministic, state-preserving function of its
arguments, configuration and provider response: a second invocation with
the same inputs (run from the state the first invocation left behind)
returns the same result, and the configuration/environment after a call
equals the one before it. -/
theorem claim_C8_deterministic (scfg : GoogleSearchTool.Cfg) (q1 : String) (fy : Option Int)
    (sresp : GoogleSearchTool.Resp) (pcfg : GooglePlacesTool.Cfg) (q2 : String)
    (loc : Option String) (rad : Option Int) (presp : GooglePlacesTool.Resp)
    (env : Env) (pid : String) (hresp : PlaceHours.Resp) :
    ((GoogleSearchTool.invoke scfg q1 fy sresp).2 = scfg ∧
      (GoogleSearchTool.invoke ((GoogleSearchTool.invoke scfg q1 fy sresp).2) q1 fy sresp).1 =
        (GoogleSearchTool.invoke scfg q1 fy sresp).1) ∧
    ((GooglePlacesTool.invoke pcfg q2 loc rad presp).2 = pcfg ∧
      (GooglePlacesTool.invoke ((GooglePlacesTool.invoke pcfg q2 loc rad presp).2)
          q2 loc rad presp).1 =
        (GooglePlacesTool.invoke pcfg q2 loc rad presp).1) ∧
    ((hoursInvoke env pid hresp).2 = env ∧
      (hoursInvoke ((hoursInvoke env pid hresp).2) pid hresp).1 =
        (hoursInvoke env pid hresp).1) :=
  ⟨⟨rfl, rfl⟩, ⟨rfl, rfl⟩, ⟨rfl, rfl⟩⟩

/-- C9: `_parse_location` is total — it returns the default pair on a
missing, empty, comma-free or doubly-comma'd location — and `forward`
always hands `_api_request` a `some`/`some` coordinate pair, so the
`None`-defaulting branches of `_api_request` (including the slip that
assigns `lat` in the `lng is None` branch) are never taken: the request
parameters carry exactly the parsed pair. -/
theorem claim_C9_parse_total_none_branches_unreachable
    (key query : String) (location : Option String) (radius : Option Int)
    (resp : GooglePlacesTool.Resp) :
    GooglePlacesTool.apiRequestCoords (some (GooglePlacesTool._parse_location location).1)
        (some (GooglePlacesTool._parse_location location).2) =
      (some (GooglePlacesTool._parse_location location).1,
       some (GooglePlacesTool._parse_location location).2) ∧
    (GooglePlacesTool.forward ⟨some key⟩ query location radius resp).2 =
      some { key := key, query := query,
             location := (some (GooglePlacesTool._parse_location location).1,
                          some (GooglePlacesTool._parse_location location).2),
             radius := radius.getD GooglePlacesTool.default_radius } ∧
    GooglePlacesTool._parse_location none =
      (GooglePlacesTool.default_lat, GooglePlacesTool.default_lng) ∧
    GooglePlacesTool._parse_location (some "") =
      (GooglePlacesTool.default_lat, GooglePlacesTool.default_lng) ∧
    GooglePlacesTool._parse_location (some "44.8176") =
      (GooglePlacesTool.default_lat, GooglePlacesTool.default_lng) ∧
    GooglePlacesTool._parse_location (some "1,2,3") =
      (GooglePlacesTool.default_lat, GooglePlacesTool.default_lng) :=
  ⟨rfl, rfl, by decide, by decide, by decide, by decide⟩

/-- C10: credential precedence is inverted between the two constructors —
`GoogleSearchTool.__init__` prefers a (truthy) explicit `api_key`/`cx`
argument over the environment, while `GooglePlacesTool.__init__` uses the
`GOOGLE_API_KEY` environment value whenever it is set and falls back to
the explicit argument only when the variable is unset. -/
theorem claim_C10_credential_precedence :
    (∀ (k c : String) (env : Env), k ≠ "" → c ≠ "" →
      GoogleSearchTool.init (some k) (some c) env = ⟨some k, some c⟩) ∧
    (∀ (a : Option String) (env : Env) (v : String), env.google_api_key = some v →
      GooglePlacesTool.init a env = ⟨some v⟩) ∧
    (∀ (a : Option String) (env : Env), env.google_api_key = none →
      GooglePlacesTool.init a env = ⟨a⟩) := by
  refine ⟨?_, ?_, ?_⟩
  · intro k c env hk hc
    simp [GoogleSearchTool.init, pyOr, hk, hc]
  · intro a env v hv
    simp [GooglePlacesTool.init, pyGetenv, hv]
  · intro a env hv
    simp [GooglePlacesTool.init, pyGetenv, hv]

/-- Witness for C10: concrete instances of all three precedence facts. -/
theorem claim_C10_witness :
    GoogleSearchTool.init (some "k") (some "c") ⟨some "e", some "f"⟩ = ⟨some "k", some "c"⟩ ∧
    GooglePlacesTool.init (some "a") ⟨some "e", none⟩ = ⟨some "e"⟩ ∧
    GooglePlacesTool.init (some "a") ⟨none, none⟩ = ⟨some "a"⟩ :=
  ⟨claim_C10_credential_precedence.1 "k" "c" ⟨some "e", some "f"⟩ (by decide) (by decide),
   claim_C10_credential_precedence.2.1 (some "a") ⟨some "e", none⟩ "e" rfl,
   claim_C10_credential_precedence.2.2 (some "a") ⟨none, none⟩ rfl⟩

/-- C5: when the provider response has zero items (no `items` key, or an
empty list), the web search adapter returns exactly the documented
no-results message, which contains the query verbatim and — when a
`filter_year` was given — mentions that year filter. -/
theorem claim_C5_no_results_message (key cx query : String) (filter_year : Option Int)
    (resp : GoogleSearchTool.Resp) (h : resp.items = none ∨ resp.items = some []) :
    (GoogleSearchTool.forward ⟨some key, some cx⟩ query filter_year resp).1 =
      .ok (GoogleSearchTool.noResultsMsg query filter_year) ∧
    strContains (GoogleSearchTool.noResultsMsg query filter_year) query ∧
    ∀ y, filter_year = some y →
      strContains (GoogleSearchTool.noResultsMsg query filter_year)
        (" with filter year=" ++ toString y) := by
  obtain ⟨items⟩ := resp
  refine ⟨?_, ?_, ?_⟩
  · rcases h with h | h
    · have h0 : items = none := h
      subst h0; rfl
    · have h0 : items = some [] := h
      subst h0; rfl
  · refine ⟨"No results found for \x27".data,
      ("\x27" ++ GoogleSearchTool.yearFilterMessage filter_year ++
        ". Try with a more general query, or remove the year filter.").data, ?_⟩
    simp [GoogleSearchTool.noResultsMsg, String.data_append]
  · intro y hy
    subst hy
    refine ⟨("No results found for \x27" ++ query ++ "\x27").data,
      ". Try with a more general query, or remove the year filter.".data, ?_⟩
    simp [GoogleSearchTool.noResultsMsg, GoogleSearchTool.yearFilterMessage,
      String.data_append]

/-- Witness for C5: a concrete empty response with a year filter. -/
theorem claim_C5_witness :
    (GoogleSearchTool.forward ⟨some "k", some "c"⟩ "q" (some 2020) ⟨none⟩).1 =
      .ok (GoogleSearchTool.noResultsMsg "q" (some 2020)) ∧
    strContains (GoogleSearchTool.noResultsMsg "q" (some 2020)) "q" ∧
    (∀ y, (some 2020 : Option Int) = some y →
      strContains (GoogleSearchTool.noResultsMsg "q" (some 2020))
        (" with filter year=" ++ toString y)) :=
  claim_C5_no_results_message "k" "c" "q" (some 2020) ⟨none⟩ (Or.inl rfl)

/-- C6: `_format_places` returns a bare descriptive string (mentioning the
query) when the provider returned zero places, and a list of per-place
records — one per place — when it returned at least one, so the two cases
are distinguished by the shape of the value. -/
theorem claim_C6_output_shape (query : String) (places : List GooglePlacesTool.Item)
    (lat lng : ℚ) (radius : Int) :
    (places = [] → ∃ m, GooglePlacesTool._format_places query places lat lng radius =
        .str m ∧ strContains m query) ∧
    (places ≠ [] → GooglePlacesTool._format_places query places lat lng radius =
        .records (places.map GooglePlacesTool.formatRecord) ∧
      (places.map GooglePlacesTool.formatRecord).length = places.length) := by
  constructor
  · rintro rfl
    refine ⟨_, rfl, ?_⟩
    refine ⟨"No places found for \x27".data,
      ("\x27 within " ++ toString radius ++ "m of coordinates " ++
        GooglePlacesTool.floatRepr lat ++ "," ++ GooglePlacesTool.floatRepr lng ++ ".").data, ?_⟩
    simp [String.data_append]
  · intro hne
    constructor
    · cases places with
      | nil => exact absurd rfl hne
      | cons a t => rfl
    · simp

/-- Witness for C6: both shapes at concrete inputs. -/
theorem claim_C6_witness :
    (∃ m, GooglePlacesTool._format_places "q" [] 1 2 5000 = .str m ∧ strContains m "q") ∧
    (GooglePlacesTool._format_places "q" [⟨none, none, none, none, none⟩] 1 2 5000 =
        .records ([⟨none, none, none, none, none⟩].map GooglePlacesTool.formatRecord) ∧
      ([(⟨none, none, none, none, none⟩ : GooglePlacesTool.Item)].map
          GooglePlacesTool.formatRecord).length = 1) :=
  ⟨(claim_C6_output_shape "q" [] 1 2 5000).1 rfl,
   (claim_C6_output_shape "q" [⟨none, none, none, none, none⟩] 1 2 5000).2 (by simp)⟩

/-- C7: a place record's rating summary is the empty string exactly when
the provider item has no `rating` key; when a rating is present the
summary carries the rating value out of 5 and the review count (the
count defaulting to 0 when absent) — never a default numeric rating. -/
theorem claim_C7_rating_summary (query : String) (places : List GooglePlacesTool.Item)
    (lat lng : ℚ) (radius : Int) (place : GooglePlacesTool.Item) :
    (places ≠ [] → GooglePlacesTool._format_places query places lat lng radius =
        .records (places.map GooglePlacesTool.formatRecord)) ∧
    (place.rating = none → (GooglePlacesTool.formatRecord place).rating_info = "") ∧
    (∀ r, place.rating = some r → (GooglePlacesTool.formatRecord place).rating_info =
        "\nRating: " ++ r ++ "/5 (" ++ place.user_ratings_total.getD "0" ++ " reviews)") := by
  refine ⟨?_, ?_, ?_⟩
  · intro hne
    cases places with
    | nil => exact absurd rfl hne
    | cons a t => rfl
  · intro h
    simp [GooglePlacesTool.formatRecord, h]
  · intro r h
    simp [GooglePlacesTool.formatRecord, h]

/-- Witness for C7: a record without a rating and one with rating 4.5 and
12 reviews. -/
theorem claim_C7_witness :
    (GooglePlacesTool._format_places "q" [⟨none, none, none, none, none⟩] 1 2 5000 =
      .records ([⟨none, none, none, none, none⟩].map GooglePlacesTool.formatRecord)) ∧
    (GooglePlacesTool.formatRecord ⟨none, none, none, none, none⟩).rating_info = "" ∧
    (GooglePlacesTool.formatRecord ⟨none, none, none, some "4.5", some "12"⟩).rating_info =
      "\nRating: " ++ "4.5" ++ "/5 (" ++ (some "12").getD "0" ++ " reviews)" :=
  ⟨(claim_C7_rating_summary "q" [⟨none, none, none, none, none⟩] 1 2 5000
      ⟨none, none, none, none, none⟩).1 (by simp),
   (claim_C7_rating_summary "q" [] 1 2 5000 ⟨none, none, none, none, none⟩).2.1 rfl,
   (claim_C7_rating_summary "q" [] 1 2 5000 ⟨none, none, none, some "4.5", some "12"⟩).2.2
      "4.5" rfl⟩

/-- Counterexample to C3 as stated: for a response with N = 1 item the
output is not 1 line — the fixed `## Search Results` header line makes it
2 lines (and for N ≥ 2 the blank separator lines add more). -/
theorem claim_C3_counterexample :
    (GoogleSearchTool.forward ⟨some "k", some "c"⟩ "q" none
        ⟨some [⟨none, some "http://a"⟩]⟩).1 = .ok "## Search Results\n1. http://a" ∧
    ¬ (linesOf "## Search Results\n1. http://a").length = 1 :=
  ⟨rfl, by decide⟩

/-- C3 (amended): for a provider response with N ≥ 1 items whose links
contain no newline, the web search output has exactly 2N lines — the
fixed header `## Search Results` first, then, at line index 2i+1
(0-based), the (i+1)-st result entry beginning with its 1-based index
`i+1` followed by `. ` and the link, with blank separator lines
between entries. -/
theorem claim_C3_search_output_lines (key cx query : String) (filter_year : Option Int)
    (items : List GoogleSearchTool.Item) (hne : items ≠ [])
    (hnl : ∀ it ∈ items, ∀ c ∈ (it.link.getD "#").data, c ≠ '\n') :
    ∃ out, (GoogleSearchTool.forward ⟨some key, some cx⟩ query filter_year ⟨some items⟩).1 =
        .ok out ∧
      (linesOf out).length = 2 * items.length ∧
      (linesOf out).get? 0 = some "## Search Results" ∧
      ∀ i it, items.get? i = some it →
        (linesOf out).get? (2 * i + 1) =
          some (Nat.repr (i + 1) ++ ". " ++ it.link.getD "#") := by
  have hsnl : ∀ s ∈ items.enum.map (fun p => GoogleSearchTool.snippet p.1 p.2),
      ∀ c ∈ s.data, c ≠ '\n' := by
    intro s hs
    rcases List.mem_map.mp hs with ⟨p, hp, rfl⟩
    exact snippet_ne_newline p.1 p.2 (hnl p.2 (List.get?_mem (List.mem_enum_iff_get?.mp hp)))
  have hsne : items.enum.map (fun p => GoogleSearchTool.snippet p.1 p.2) ≠ [] := by
    intro h0
    apply hne
    simpa using congrArg List.length h0
  have hchar := header_join_linesOf _ hsne hsnl
  refine ⟨"## Search Results\n" ++
    pyJoin "\n\n" (items.enum.map (fun p => GoogleSearchTool.snippet p.1 p.2)), ?_, ?_, ?_, ?_⟩
  · cases items with
    | nil => exact absurd rfl hne
    | cons a t => rfl
  · have hlen : 1 ≤ items.length := by
      cases items with
      | nil => exact absurd rfl hne
      | cons a t => simp
    rw [hchar, List.length_cons, intersperse_length_eq]
    simp only [List.length_map, List.enum_length]
    omega
  · rw [hchar]
    rfl
  · intro i it hit
    rw [hchar, List.get?_cons_succ, intersperse_get?_two_mul, List.get?_map, List.get?_enum,
      hit]
    rfl

/-- Witness for C3 (amended): a concrete two-item response. -/
theorem claim_C3_witness :
    ∃ out, (GoogleSearchTool.forward ⟨some "k", some "c"⟩ "q" none
        ⟨some [⟨none, some "http://a"⟩, ⟨some "t", some "http://b"⟩]⟩).1 = .ok out ∧
      (linesOf out).length = 2 * ([(⟨none, some "http://a"⟩ : GoogleSearchTool.Item),
        ⟨some "t", some "http://b"⟩].length) ∧
      (linesOf out).get? 0 = some "## Search Results" ∧
      ∀ i it, [(⟨none, some "http://a"⟩ : GoogleSearchTool.Item),
          ⟨some "t", some "http://b"⟩].get? i = some it →
        (linesOf out).get? (2 * i + 1) =
          some (Nat.repr (i + 1) ++ ". " ++ it.link.getD "#") :=
  claim_C3_search_output_lines "k" "c" "q" none
    [⟨none, some "http://a"⟩, ⟨some "t", some "http://b"⟩] (by decide) (by decide)
